import Mathlib

/-!
Verification of the request-handling flow of the YouTube-summarizer service
(`src/app.py`): the regex-based video-id extractor, the prompt builder, the
transcript fetcher and summarizer wrappers, and the `/summarize` handler with
its exception-to-HTTP-status mapping.  Python strings are modelled as
`List Char`, Python exceptions as an explicit error type, and the two external
collaborators (yt-dlp / requests / XML parsing, and the Gemini client) as
oracle records passed to the functions that call them.
-/

/-- Python exception values that can flow through the module.  The three
`youtube_transcript_api` classes named (but never imported) in the handler's
first `except` clause are included so the intended 404 mapping can be stated. -/
inductive PyErr where
  | valueError (msg : String)
  | runtimeError (msg : String)
  | typeError (msg : String)
  | nameError (nm : String)
  | transcriptsDisabled (msg : String)
  | noTranscriptFound (msg : String)
  | videoUnavailable (msg : String)
  | otherExn (msg : String)
deriving DecidableEq

deriving instance DecidableEq for Except

/-- `str(e)` for the exceptions above (the message they carry). -/
def PyErr.pyStr : PyErr → String
  | .valueError m => m
  | .runtimeError m => m
  | .typeError m => m
  | .nameError n => "name " ++ n ++ " is not defined"
  | .transcriptsDisabled m => m
  | .noTranscriptFound m => m
  | .videoUnavailable m => m
  | .otherExn m => m

/-- The character class `[A-Za-z0-9_-]` of the id patterns in `_YT_ID_PATTERNS`. -/
def isIdChar (c : Char) : Bool :=
  c.isAlpha || c.isDigit || c = '_' || c = '-'

/-- `begins m s` holds when the literal string `m` occurs at the start of `s`. -/
def begins : List Char → List Char → Bool
  | [], _ => true
  | _ :: _, [] => false
  | a :: as, b :: bs => a == b && begins as bs

/-- Maximal leading run of id characters: the greedy match of `[A-Za-z0-9_-]*`. -/
def idRun : List Char → List Char
  | [] => []
  | c :: cs => if isIdChar c then c :: idRun cs else []

/-- `re.search` for a pattern of the form `<marker>([A-Za-z0-9_-]{6,})`:
scan for the leftmost position where the literal `marker` occurs followed by
at least 6 id characters, and return the (greedy, hence maximal) captured run. -/
def searchPat (m : List Char) : List Char → Option (List Char)
  | [] => none
  | c :: rest =>
      if begins m (c :: rest) then
        if 6 ≤ (idRun ((c :: rest).drop m.length)).length then
          some (idRun ((c :: rest).drop m.length))
        else searchPat m rest
      else searchPat m rest

/-- The pattern `<marker>([A-Za-z0-9_-]{6,})` succeeds at position `p` of `s`:
`marker` occurs there and is followed by at least 6 id characters. -/
def succMatchAt (m s : List Char) (p : Nat) : Bool :=
  begins m (s.drop p) && decide (6 ≤ (idRun ((s.drop p).drop m.length)).length)

/-- The markers of the three patterns in `_YT_ID_PATTERNS`, in source order:
`v=(...)`, `youtu\.be/(...)`, `shorts/(...)`. -/
def ytIdPatterns : List (List Char) :=
  ["v=".toList, "youtu.be/".toList, "shorts/".toList]

/-- The `for p in _YT_ID_PATTERNS` loop of `extract_video_id`: return the
first pattern's captured group, in order. -/
def searchFirst : List (List Char) → List Char → Option (List Char)
  | [], _ => none
  | m :: ms, s =>
      match searchPat m s with
      | some cap => some cap
      | none => searchFirst ms s

/-- Message of the `ValueError` raised by `extract_video_id`. -/
def videoIdErrMsg : String :=
  "Video ID bulunamadı. Geçerli bir YouTube URL\x27si veya video ID gönderin."

/-- `extract_video_id` (src/app.py lines 106-120): try the three URL patterns
in order; otherwise accept the whole input if it fullmatches
`[A-Za-z0-9_-]{6,}`; otherwise raise `ValueError`. -/
def extract_video_id (s : List Char) : Except PyErr (List Char) :=
  match searchFirst ytIdPatterns s with
  | some cap => .ok cap
  | none =>
      if 6 ≤ s.length ∧ s.all isIdChar = true then .ok s
      else .error (.valueError videoIdErrMsg)

/-- Whitespace in the sense of Python's `str.strip()` (ASCII range; the
inputs handled by this module contain no further Unicode whitespace). -/
def isPySpace (c : Char) : Bool :=
  c = ' ' || c = '\t' || c = '\n' || c = '\r' || c = Char.ofNat 11 || c = Char.ofNat 12

/-- Python `text.strip()`. -/
def pyStrip (s : List Char) : List Char :=
  ((s.dropWhile isPySpace).reverse.dropWhile isPySpace).reverse

/-- `MAX_INPUT_CHARS` (src/app.py line 38). -/
def MAX_INPUT_CHARS : Nat := 12000

/-- The f-string template of `build_prompt` with the language tag and the
(possibly truncated) text substituted in. -/
def promptTemplate (language t : List Char) : List Char :=
  "Summarize the following YouTube transcript in ".toList ++ language
    ++ ". Provide a detailed but clear summary of the content:\n".toList
    ++ "\"\"\"".toList ++ t ++ "\"\"\"".toList

/-- `build_prompt` (src/app.py lines 185-202): strip, reject empty, truncate
to `MAX_INPUT_CHARS` plus the marker `" ..."`, wrap in the template. -/
def build_prompt (text language : List Char) : Except PyErr (List Char) :=
  let t := pyStrip text
  if t = [] then .error (.valueError "Özetlenecek metin boş.")
  else
    let t2 := if MAX_INPUT_CHARS < t.length then t.take MAX_INPUT_CHARS ++ " ...".toList else t
    .ok (promptTemplate language t2)

/-- The `info` object returned by `ydl.extract_info`: only its `subtitles`
entry is consulted.  `none` models an absent `subtitles` key; an entry maps a
language tag to the list of available subtitle formats, of which only the
format URL (`selected_sub[\x27url\x27]`) is consulted. -/
structure YdlInfo where
  subtitles : Option (List (List Char × List (List Char)))

/-- The external collaborators of `fetch_transcript`: `ydl.extract_info`,
`requests.get(sub_url).text`, and the XML parse that yields the `.text`
attribute of each `.//text` element (which can be `None`). -/
structure Provider where
  extract_info : List Char → Except PyErr YdlInfo
  http_get : List Char → Except PyErr (List Char)
  parse_texts : List Char → Except PyErr (List (Option (List Char)))

/-- Python `dict.get` over an association list. -/
def dictGet {α : Type} (d : List (List Char × α)) (k : List Char) : Option α :=
  (d.find? (fun kv => kv.1 == k)).map (fun kv => kv.2)

/-- The `for lang in prefer_langs or [...]` selection loop: first language
whose entry is present and non-empty wins, and its last format is chosen
(`subtitles[lang][-1]`). -/
def selectSub : List (List Char) → List (List Char × List (List Char)) → Option (List Char)
  | [], _ => none
  | l :: ls, subs =>
      match dictGet subs l with
      | some fmts =>
          match fmts.getLast? with
          | some u => some u
          | none => selectSub ls subs
      | none => selectSub ls subs

/-- `" ".join(...)`. -/
def joinSpace : List (List Char) → List Char
  | [] => []
  | [t] => t
  | t :: u :: ts => t ++ [' '] ++ joinSpace (u :: ts)

/-- The comprehension `[elem.text for elem in root.findall(...) if elem.text]`:
keep only the truthy (non-`None`, non-empty) texts. -/
def truthyTexts (ts : List (Option (List Char))) : List (List Char) :=
  ts.filterMap (fun o => match o with
    | some t => if t = [] then none else some t
    | none => none)

/-- The body of the `try` block of `fetch_transcript`
(src/app.py lines 141-174). -/
def fetch_transcript_body (prov : Provider) (url : List Char)
    (prefer_langs : Option (List (List Char))) : Except PyErr (List Char) := do
  let info ← prov.extract_info url
  match info.subtitles with
  | none => throw (PyErr.valueError "Bu video için transkript bulunamadı veya kapalıdır.")
  | some subs =>
    if subs = [] then
      throw (PyErr.valueError "Bu video için transkript bulunamadı veya kapalıdır.")
    else
      match selectSub (prefer_langs.getD ["tr".toList, "en".toList]) subs with
      | none => throw (PyErr.valueError "Tercih edilen dillerde (tr/en) transkript bulunamadı.")
      | some sub_url => do
        let data ← prov.http_get sub_url
        let texts ← prov.parse_texts data
        let full_text := joinSpace (truthyTexts texts)
        if pyStrip full_text = [] then throw (PyErr.valueError "Transkript içeriği boş.")
        else pure full_text

/-- `fetch_transcript` (src/app.py lines 124-178): run the body and re-raise
any exception as `ValueError(f"Transcript alınırken hata: ...")`. -/
def fetch_transcript (prov : Provider) (url : List Char)
    (prefer_langs : Option (List (List Char))) : Except PyErr (List Char) :=
  match fetch_transcript_body prov url prefer_langs with
  | .ok t => .ok t
  | .error e => .error (.valueError ("Transcript alınırken hata: " ++ e.pyStr))

/-- The Gemini collaborator: `client.models.generate_content(model, contents)`,
yielding `getattr(resp, "text", None)` (possibly `None`), or raising. -/
structure Gemini where
  generate_content : String → List Char → Except PyErr (Option (List Char))

/-- `DEFAULT_MODEL` (src/app.py line 32). -/
def DEFAULT_MODEL : String := "gemini-2.5-flash"

/-- `summarize_with_gemini` (src/app.py lines 205-223): build the prompt
(outside the `try`, so its `ValueError` propagates unchanged), call the model,
treat a blank or missing `resp.text` as `RuntimeError`, and wrap every
exception of the `try` block in `RuntimeError(f"Gemini çağrısı başarısız: ...")`. -/
def summarize_with_gemini (g : Gemini) (text language : List Char)
    (model : String) : Except PyErr (List Char) :=
  match build_prompt text language with
  | .error e => .error e
  | .ok prompt =>
    let tryBlock : Except PyErr (List Char) := do
      let respText ← g.generate_content model prompt
      let summary := pyStrip (respText.getD [])
      if summary = [] then throw (PyErr.runtimeError "Gemini boş yanıt döndürdü.")
      else pure summary
    match tryBlock with
    | .ok s => .ok s
    | .error e => .error (.runtimeError ("Gemini çağrısı başarısız: " ++ e.pyStr))

/-- `SummarizeReq` (src/app.py lines 83-89): `language` is optional with
default `"tr"`; `none` models an explicit JSON `null`. -/
structure SummarizeReq where
  url_or_id : List Char
  language : Option (List Char)
deriving DecidableEq

/-- `SummarizeRes` (src/app.py lines 92-99). -/
structure SummarizeRes where
  video_id : List Char
  language : List Char
  summary : List Char
deriving DecidableEq

/-- `req.language or "tr"`: `None` and the empty string are falsy. -/
def reqLanguage (req : SummarizeReq) : List Char :=
  match req.language with
  | some l => if l = [] then "tr".toList else l
  | none => "tr".toList

/-- The parameters accepted by `fetch_transcript`'s signature
(src/app.py line 124). -/
def fetch_transcript_param_names : List String := ["url", "prefer_langs"]

/-- The keyword arguments the handler passes to `fetch_transcript`
(src/app.py lines 247-251). -/
def summarize_fetch_kwargs : List String := ["prefer_langs", "preserve_formatting"]

/-- The handler's call `fetch_transcript(req.url_or_id, prefer_langs=...,
preserve_formatting=False)`: Python raises `TypeError` at argument-binding
time when a keyword argument is not in the callee's signature, before the
callee's body runs. -/
def call_fetch_transcript (prov : Provider) (req : SummarizeReq) : Except PyErr (List Char) :=
  if summarize_fetch_kwargs.all (fun k => fetch_transcript_param_names.contains k) then
    fetch_transcript prov req.url_or_id
      (some [reqLanguage req, "tr-TR".toList, "en".toList])
  else
    .error (.typeError
      "fetch_transcript() got an unexpected keyword argument preserve_formatting")

/-- The `try` block of the `/summarize` handler (src/app.py lines 245-258). -/
def try_body (prov : Provider) (g : Gemini) (req : SummarizeReq) :
    Except PyErr SummarizeRes := do
  let transcript ← call_fetch_transcript prov req
  let vid ← extract_video_id req.url_or_id
  let summary ← summarize_with_gemini g transcript (reqLanguage req) DEFAULT_MODEL
  pure ⟨vid, reqLanguage req, summary⟩

/-- What a request produces at the framework boundary: a 200 with a
`SummarizeRes` body, an `HTTPException(status, detail)`, or an exception that
escapes the handler (which the framework turns into a generic 500). -/
inductive HandlerOutcome where
  | success (res : SummarizeRes)
  | httpError (status : Nat) (detail : String)
  | unhandled (e : PyErr)
deriving DecidableEq

/-- The Python builtins the module relies on. -/
def python_builtins : List String :=
  ["ValueError", "RuntimeError", "TypeError", "Exception", "len", "str", "getattr"]

/-- Every name bound by the module's import statements
(src/app.py lines 9-21). -/
def imported_names : List String :=
  ["os", "re", "Optional", "List", "FastAPI", "HTTPException", "CORSMiddleware",
   "BaseModel", "YoutubeDL", "load_dotenv", "genai"]

/-- Names in scope when line 64 (`ytt_api = YouTubeTranscriptApi()`) runs:
builtins, imports, and the module-level assignments up to line 61. -/
def names_before_ytt_api : List String :=
  python_builtins ++ imported_names ++
    ["ENV_API_KEY_NAME", "DEFAULT_MODEL", "DEFAULT_LANGS", "MAX_INPUT_CHARS",
     "_YT_ID_PATTERNS", "API_KEY", "client"]

/-- Every name the module ever binds: the above plus the remaining
module-level definitions. -/
def module_defined_names : List String :=
  names_before_ytt_api ++
    ["ytt_api", "app", "SummarizeReq", "SummarizeRes", "extract_video_id",
     "fetch_transcript", "build_prompt", "summarize_with_gemini", "health",
     "summarize"]

/-- The names the handler's first `except` clause must resolve
(src/app.py line 261). -/
def except_clause1_names : List String :=
  ["TranscriptsDisabled", "NoTranscriptFound", "VideoUnavailable"]

/-- Module initialization at import time up to line 64: a missing API key is
fatal (`RuntimeError`), and evaluating `YouTubeTranscriptApi()` requires the
name to be bound. -/
def module_init (api_key_present : Bool) : Except PyErr Unit :=
  if api_key_present = false then
    .error (.runtimeError "GOOGLE_API_KEY is not set in .env")
  else if names_before_ytt_api.contains "YouTubeTranscriptApi" then .ok ()
  else .error (.nameError "YouTubeTranscriptApi")

/-- The handler's `except` chain (src/app.py lines 260-274).  Python evaluates
each clause's class tuple when an exception arrives; if the first tuple's
names are unbound, that evaluation raises `NameError` and the new exception
escapes the handler, bypassing the later clauses. -/
def handle_exception (e : PyErr) : HandlerOutcome :=
  if except_clause1_names.all (fun n => module_defined_names.contains n) then
    match e with
    | .transcriptsDisabled m | .noTranscriptFound m | .videoUnavailable m =>
        .httpError 404 ("Transcript bulunamadı veya devre dışı: " ++ m)
    | .valueError m => .httpError 400 m
    | .runtimeError m => .httpError 502 m
    | e2 => .httpError 500 ("Beklenmeyen hata: " ++ e2.pyStr)
  else .unhandled (.nameError "TranscriptsDisabled")

/-- The `/summarize` handler (src/app.py lines 236-274). -/
def summarize_handler (prov : Provider) (g : Gemini) (req : SummarizeReq) :
    HandlerOutcome :=
  match try_body prov g req with
  | .ok res => .success res
  | .error e => handle_exception e

/-! Lemmas about the regex-search model. -/

/-- A character of a matched literal marker occurs in the matched string. -/
theorem begins_mem : ∀ (m s : List Char), begins m s = true → ∀ a ∈ m, a ∈ s := by
  intro m
  induction m with
  | nil => intro s _ a ha; exact absurd ha (List.not_mem_nil a)
  | cons b bs ih =>
    intro s h a ha
    cases s with
    | nil => simp [begins] at h
    | cons c cs =>
      rw [begins, Bool.and_eq_true, beq_iff_eq] at h
      rcases List.mem_cons.mp ha with rfl | ha2
      · rw [h.1]; exact List.mem_cons_self c cs
      · exact List.mem_cons_of_mem c (ih cs h.2 a ha2)

/-- A successful pattern match needs the marker to start inside the string. -/
theorem succMatchAt_lt_length (m s : List Char) (p : Nat) (hm : m ≠ [])
    (h : succMatchAt m s p = true) : p < s.length := by
  rw [succMatchAt, Bool.and_eq_true] at h
  by_contra hle
  push_neg at hle
  have hdrop : s.drop p = [] := List.drop_eq_nil_of_le hle
  rw [hdrop] at h
  cases m with
  | nil => exact hm rfl
  | cons a as => simp [begins] at h

/-- A failed match at the head lets the search step to the tail. -/
theorem searchPat_step (m : List Char) (c : Char) (rest : List Char)
    (h0 : succMatchAt m (c :: rest) 0 = false) :
    searchPat m (c :: rest) = searchPat m rest := by
  by_cases hb : begins m (c :: rest) = true
  · by_cases h6 : 6 ≤ (idRun ((c :: rest).drop m.length)).length
    · exfalso
      have : succMatchAt m (c :: rest) 0 = true := by
        rw [succMatchAt, Bool.and_eq_true, List.drop_zero]
        exact ⟨hb, decide_eq_true h6⟩
      rw [this] at h0; exact Bool.true_eq_false.mp h0
    · rw [searchPat, if_pos hb, if_neg h6]
  · rw [searchPat, if_neg (by simpa using hb)]

/-- The search finds the leftmost successful match and returns its greedy
captured id run. -/
theorem searchPat_eq_some (m : List Char) :
    ∀ (p : Nat) (s : List Char), succMatchAt m s p = true →
      (∀ q, q < p → succMatchAt m s q = false) →
      searchPat m s = some (idRun ((s.drop p).drop m.length)) := by
  intro p
  induction p with
  | zero =>
    intro s h _
    cases s with
    | nil =>
      exfalso
      rw [succMatchAt, Bool.and_eq_true] at h
      simp [idRun] at h
    | cons c rest =>
      rw [succMatchAt, Bool.and_eq_true, List.drop_zero] at h
      have h6 := of_decide_eq_true h.2
      rw [searchPat, if_pos h.1, if_pos h6, List.drop_zero]
  | succ q ih =>
    intro s h hlt
    cases s with
    | nil =>
      exfalso
      rw [succMatchAt, Bool.and_eq_true] at h
      simp [idRun] at h
    | cons c rest =>
      have h0 : succMatchAt m (c :: rest) 0 = false := hlt 0 (Nat.succ_pos q)
      rw [searchPat_step m c rest h0]
      exact ih rest h (fun q2 hq2 => hlt (q2 + 1) (by omega))

/-- If no position matches successfully, the search fails. -/
theorem searchPat_eq_none (m : List Char) :
    ∀ (s : List Char), (∀ q, succMatchAt m s q = false) → searchPat m s = none := by
  intro s
  induction s with
  | nil => intro _; rfl
  | cons c rest ih =>
    intro h
    rw [searchPat_step m c rest (h 0)]
    exact ih (fun q => h (q + 1))

/-- A marker containing a character outside `[A-Za-z0-9_-]` can never match
inside a string made of id characters only. -/
theorem searchPat_none_of_bad_char (m : List Char) (c0 : Char) (hc0 : c0 ∈ m)
    (hbad : isIdChar c0 = false) :
    ∀ (s : List Char), s.all isIdChar = true → searchPat m s = none := by
  intro s
  induction s with
  | nil => intro _; rfl
  | cons c rest ih =>
    intro hall
    rw [List.all_cons, Bool.and_eq_true] at hall
    have hb : begins m (c :: rest) = false := by
      by_contra hbt
      rw [Bool.not_eq_false] at hbt
      have hmem : c0 ∈ c :: rest := begins_mem m (c :: rest) hbt c0 hc0
      have : isIdChar c0 = true := by
        rcases List.mem_cons.mp hmem with rfl | h2
        · exact hall.1
        · exact List.all_eq_true.mp hall.2 c0 h2
      rw [hbad] at this; exact Bool.false_ne_true this
    have h0 : succMatchAt m (c :: rest) 0 = false := by
      rw [succMatchAt, List.drop_zero, hb, Bool.false_and]
    rw [searchPat_step m c rest h0]
    exact ih hall.2

/-- Every list all of whose elements satisfy `p` is fully consumed by
`dropWhile p`. -/
theorem dropWhile_eq_nil_of_all (p : Char → Bool) :
    ∀ (l : List Char), l.all p = true → l.dropWhile p = [] := by
  intro l
  induction l with
  | nil => intro _; rfl
  | cons c cs ih =>
    intro h
    rw [List.all_cons, Bool.and_eq_true] at h
    rw [List.dropWhile_cons, if_pos h.1]
    exact ih h.2

/-- Stripping a whitespace-only string yields the empty string. -/
theorem pyStrip_eq_nil_of_all (text : List Char) (h : text.all isPySpace = true) :
    pyStrip text = [] := by
  rw [pyStrip, dropWhile_eq_nil_of_all isPySpace text h]
  rfl

/-! Claim theorems. -/

/-- C3: for every input whose whitespace-trimmed form is non-empty,
`build_prompt` embeds, in the instruction template, exactly the first
12,000 characters of the trimmed text followed by the ellipsis marker
`" ..."` when the trimmed length exceeds 12,000, and the trimmed text
unmodified otherwise. -/
theorem build_prompt_truncation (text language : List Char)
    (h : pyStrip text ≠ []) :
    (MAX_INPUT_CHARS < (pyStrip text).length →
      build_prompt text language
        = .ok (promptTemplate language
            ((pyStrip text).take MAX_INPUT_CHARS ++ " ...".toList)))
    ∧ ((pyStrip text).length ≤ MAX_INPUT_CHARS →
      build_prompt text language = .ok (promptTemplate language (pyStrip text))) := by
  constructor
  · intro hgt
    simp only [build_prompt]
    rw [if_neg h, if_pos hgt]
  · intro hle
    simp only [build_prompt]
    rw [if_neg h, if_neg (by omega : ¬ MAX_INPUT_CHARS < (pyStrip text).length)]

/-- Witness for C3 at the concrete input `"  hi  "`. -/
theorem build_prompt_truncation_witness :
    pyStrip "  hi  ".toList ≠ [] ∧
    ((MAX_INPUT_CHARS < (pyStrip "  hi  ".toList).length →
      build_prompt "  hi  ".toList "tr".toList
        = .ok (promptTemplate "tr".toList
            ((pyStrip "  hi  ".toList).take MAX_INPUT_CHARS ++ " ...".toList)))
    ∧ ((pyStrip "  hi  ".toList).length ≤ MAX_INPUT_CHARS →
      build_prompt "  hi  ".toList "tr".toList
        = .ok (promptTemplate "tr".toList (pyStrip "  hi  ".toList)))) :=
  ⟨by decide, build_prompt_truncation _ _ (by decide)⟩

/-- C4: for every input containing one of the three URL shapes — the marker
`v=`, `youtu.be/` or `shorts/` followed by a maximal run of at least 6 id
characters — and containing no other successful pattern occurrence (the
shapes are disjoint on real URLs), `extract_video_id` returns exactly that
maximal run. -/
theorem extract_video_id_url_shapes (s m id : List Char) (p : Nat)
    (hm : m ∈ ytIdPatterns)
    (hp : succMatchAt m s p = true)
    (hid : id = idRun ((s.drop p).drop m.length))
    (huniq : ∀ m2 ∈ ytIdPatterns, ∀ q < s.length,
      succMatchAt m2 s q = true → m2 = m ∧ q = p) :
    extract_video_id s = .ok id := by
  subst hid
  have hne_all : ∀ m2 ∈ ytIdPatterns, m2 ≠ [] := by decide
  have hleft : ∀ q, q < p → succMatchAt m s q = false := by
    intro q hq
    by_contra hqt
    rw [Bool.not_eq_false] at hqt
    have hbound := succMatchAt_lt_length m s q (hne_all m hm) hqt
    have := (huniq m hm q hbound hqt).2
    omega
  have hsome := searchPat_eq_some m p s hp hleft
  have hnone : ∀ m2 ∈ ytIdPatterns, m2 ≠ m → searchPat m2 s = none := by
    intro m2 hm2 hne
    apply searchPat_eq_none
    intro q
    by_contra hqt
    rw [Bool.not_eq_false] at hqt
    have hbound := succMatchAt_lt_length m2 s q (hne_all m2 hm2) hqt
    exact hne (huniq m2 hm2 q hbound hqt).1
  have hm3 : m = "v=".toList ∨ m = "youtu.be/".toList ∨ m = "shorts/".toList := by
    simpa [ytIdPatterns] using hm
  rcases hm3 with rfl | rfl | rfl
  · simp only [extract_video_id, ytIdPatterns, searchFirst, hsome]
  · have h1 : searchPat "v=".toList s = none := hnone _ (by decide) (by decide)
    simp only [extract_video_id, ytIdPatterns, searchFirst, h1, hsome]
  · have h1 : searchPat "v=".toList s = none := hnone _ (by decide) (by decide)
    have h2 : searchPat "youtu.be/".toList s = none := hnone _ (by decide) (by decide)
    simp only [extract_video_id, ytIdPatterns, searchFirst, h1, h2, hsome]

/-- Witness for C4 at the canonical watch URL, id `dQw4w9WgXcQ`, marker
`v=` at position 30. -/
theorem extract_video_id_url_shapes_witness :
    ("v=".toList ∈ ytIdPatterns
      ∧ succMatchAt "v=".toList "https://www.youtube.com/watch?v=dQw4w9WgXcQ".toList 30 = true
      ∧ "dQw4w9WgXcQ".toList
          = idRun ((("https://www.youtube.com/watch?v=dQw4w9WgXcQ".toList).drop 30).drop
              ("v=".toList).length)
      ∧ (∀ m2 ∈ ytIdPatterns,
          ∀ q < ("https://www.youtube.com/watch?v=dQw4w9WgXcQ".toList).length,
          succMatchAt m2 "https://www.youtube.com/watch?v=dQw4w9WgXcQ".toList q = true →
            m2 = "v=".toList ∧ q = 30))
    ∧ extract_video_id "https://www.youtube.com/watch?v=dQw4w9WgXcQ".toList
        = .ok "dQw4w9WgXcQ".toList :=
  ⟨⟨by decide, by decide, by decide, by decide⟩,
   extract_video_id_url_shapes "https://www.youtube.com/watch?v=dQw4w9WgXcQ".toList
     "v=".toList "dQw4w9WgXcQ".toList 30
     (by decide) (by decide) (by decide) (by decide)⟩

/-- C5: on a bare string of length at least 6 made only of id characters
(which therefore contains none of the URL markers), `extract_video_id` is
the identity. -/
theorem extract_video_id_bare_identity (s : List Char) (h6 : 6 ≤ s.length)
    (hall : s.all isIdChar = true) : extract_video_id s = .ok s := by
  have h1 : searchPat "v=".toList s = none :=
    searchPat_none_of_bad_char _ '=' (by decide) (by decide) s hall
  have h2 : searchPat "youtu.be/".toList s = none :=
    searchPat_none_of_bad_char _ '/' (by decide) (by decide) s hall
  have h3 : searchPat "shorts/".toList s = none :=
    searchPat_none_of_bad_char _ '/' (by decide) (by decide) s hall
  simp only [extract_video_id, ytIdPatterns, searchFirst, h1, h2, h3]
  rw [if_pos ⟨h6, hall⟩]

/-- Witness for C5 at the bare id `dQw4w9WgXcQ`. -/
theorem extract_video_id_bare_identity_witness :
    6 ≤ ("dQw4w9WgXcQ".toList).length
    ∧ ("dQw4w9WgXcQ".toList).all isIdChar = true
    ∧ extract_video_id "dQw4w9WgXcQ".toList = .ok "dQw4w9WgXcQ".toList :=
  ⟨by decide, by decide, extract_video_id_bare_identity _ (by decide) (by decide)⟩

/-- C6: on an input that is shorter than 6 characters or contains a
character outside `[A-Za-z0-9_-]`, and in which no URL pattern matches,
`extract_video_id` raises `ValueError` (the `InvalidInput` failure). -/
theorem extract_video_id_invalid_error (s : List Char)
    (hbad : s.length < 6 ∨ ∃ c ∈ s, isIdChar c = false)
    (hnomatch : ∀ m ∈ ytIdPatterns, ∀ q < s.length, succMatchAt m s q = false) :
    extract_video_id s = .error (.valueError videoIdErrMsg) := by
  have hne_all : ∀ m2 ∈ ytIdPatterns, m2 ≠ [] := by decide
  have hnone : ∀ m ∈ ytIdPatterns, searchPat m s = none := by
    intro m hm
    apply searchPat_eq_none
    intro q
    by_cases hq : q < s.length
    · exact hnomatch m hm q hq
    · by_contra hqt
      rw [Bool.not_eq_false] at hqt
      exact hq (succMatchAt_lt_length m s q (hne_all m hm) hqt)
  have h1 := hnone _ (show "v=".toList ∈ ytIdPatterns by decide)
  have h2 := hnone _ (show "youtu.be/".toList ∈ ytIdPatterns by decide)
  have h3 := hnone _ (show "shorts/".toList ∈ ytIdPatterns by decide)
  simp only [extract_video_id, ytIdPatterns, searchFirst, h1, h2, h3]
  rw [if_neg]
  rintro ⟨hlen, hallid⟩
  rcases hbad with hlt | ⟨c, hc, hcbad⟩
  · omega
  · have := List.all_eq_true.mp hallid c hc
    rw [hcbad] at this
    exact Bool.false_ne_true this

/-- Witness for C6 at the too-short input `"abc"`. -/
theorem extract_video_id_invalid_error_witness :
    (("abc".toList).length < 6 ∨ ∃ c ∈ "abc".toList, isIdChar c = false)
    ∧ (∀ m ∈ ytIdPatterns, ∀ q < ("abc".toList).length,
        succMatchAt m "abc".toList q = false)
    ∧ extract_video_id "abc".toList = .error (.valueError videoIdErrMsg) :=
  ⟨by decide, by decide, extract_video_id_invalid_error _ (by decide) (by decide)⟩

/-- C7: `build_prompt` on empty or whitespace-only text raises `ValueError`
(the `EmptyInput` failure) as claimed — but in the handler this `ValueError`
is NOT mapped to 400: evaluating the first `except` clause raises `NameError`
(its exception classes are unbound), so the exception escapes the handler. -/
theorem build_prompt_blank_not_mapped_to_400 (text language : List Char)
    (h : text.all isPySpace = true) :
    build_prompt text language = .error (.valueError "Özetlenecek metin boş.") ∧
    handle_exception (.valueError "Özetlenecek metin boş.")
      = .unhandled (.nameError "TranscriptsDisabled") := by
  constructor
  · simp only [build_prompt]
    rw [if_pos (pyStrip_eq_nil_of_all text h)]
  · rfl

/-- Witness for C7 at the whitespace-only text `"   "`. -/
theorem build_prompt_blank_not_mapped_to_400_witness :
    ("   ".toList).all isPySpace = true ∧
    (build_prompt "   ".toList "tr".toList
        = .error (.valueError "Özetlenecek metin boş.") ∧
      handle_exception (.valueError "Özetlenecek metin boş.")
        = .unhandled (.nameError "TranscriptsDisabled")) :=
  ⟨by decide, build_prompt_blank_not_mapped_to_400 _ _ (by decide)⟩

/-- A provider whose `extract_info` reports that captions are disabled. -/
def disabledProvider : Provider where
  extract_info := fun _ => .error (.otherExn "Subtitles are disabled for this video")
  http_get := fun _ => .ok []
  parse_texts := fun _ => .ok []

/-- A Gemini client that is never consulted in the scenarios below. -/
def nullGemini : Gemini where
  generate_content := fun _ _ => .ok none

/-- C1: when the transcript provider reports captions disabled, the handler
does NOT return 404.  `fetch_transcript` wraps every provider failure in a
`ValueError` (the 400 class), and the handler itself never reaches the
provider: its fetch call raises `TypeError` and the broken first `except`
clause turns every exception into an escaping `NameError` (framework 500). -/
theorem transcript_disabled_no_404 :
    fetch_transcript disabledProvider "https://youtu.be/dQw4w9WgXcQ".toList
        (some ["tr".toList, "tr-TR".toList, "en".toList])
      = .error (.valueError
          ("Transcript alınırken hata: " ++ "Subtitles are disabled for this video")) ∧
    summarize_handler disabledProvider nullGemini
        ⟨"https://youtu.be/dQw4w9WgXcQ".toList, some "tr".toList⟩
      = .unhandled (.nameError "TranscriptsDisabled") :=
  ⟨rfl, rfl⟩

/-- C2: for the too-short input `"abc"` the id extractor does raise
`ValueError`, and no network call is made — but the handler does not return
400: the fetch call's `TypeError` followed by the `NameError` in the first
`except` clause makes every request end as an escaping `NameError`
(framework 500), for every provider and summarizer. -/
theorem short_input_unhandled_not_400 :
    extract_video_id "abc".toList = .error (.valueError videoIdErrMsg) ∧
    (∀ (prov : Provider) (g : Gemini),
      summarize_handler prov g ⟨"abc".toList, some "tr".toList⟩
        = .unhandled (.nameError "TranscriptsDisabled")) :=
  ⟨by decide, fun _ _ => rfl⟩

/-- A provider for which the transcript fetch fully succeeds with the text
`"Hello world"`. -/
def goodProvider : Provider where
  extract_info := fun _ =>
    .ok ⟨some [("tr".toList, ["https://captions.example/tr.srv3".toList])]⟩
  http_get := fun _ =>
    .ok "<timedtext><text>Hello</text><text>world</text></timedtext>".toList
  parse_texts := fun _ => .ok [some "Hello".toList, some "world".toList]

/-- A Gemini client that returns an empty response text. -/
def emptyGemini : Gemini where
  generate_content := fun _ _ => .ok (some [])

/-- C8: when the transcript fetch succeeds but the summarizer returns empty
text, `summarize_with_gemini` does raise the 502-class `RuntimeError` — but
the handler does not return 502: its `except RuntimeError` clause is dead
because the first `except` clause raises `NameError` on every exception, and
the handler never even reaches the summarizer (the fetch call raises
`TypeError`). -/
theorem empty_summary_unhandled_not_502 :
    fetch_transcript goodProvider "https://youtu.be/dQw4w9WgXcQ".toList
        (some ["tr".toList, "tr-TR".toList, "en".toList]) = .ok "Hello world".toList ∧
    summarize_with_gemini emptyGemini "Hello world".toList "tr".toList DEFAULT_MODEL
      = .error (.runtimeError
          ("Gemini çağrısı başarısız: " ++ "Gemini boş yanıt döndürdü.")) ∧
    (∀ m, handle_exception (.runtimeError m)
      = .unhandled (.nameError "TranscriptsDisabled")) ∧
    summarize_handler goodProvider emptyGemini
        ⟨"https://youtu.be/dQw4w9WgXcQ".toList, some "tr".toList⟩
      = .unhandled (.nameError "TranscriptsDisabled") :=
  ⟨by decide, rfl, fun _ => rfl, rfl⟩

/-- C9: the handler's call to `fetch_transcript` passes the keyword argument
`preserve_formatting`, which the signature `(url, prefer_langs)` does not
accept, so the call raises `TypeError` before the fetch body runs: the
outcome is the same for every provider and summarizer (no network call is
started), and no request ever produces a 200 response. -/
theorem fetch_call_typeerror_no_success :
    (∀ (prov : Provider) (req : SummarizeReq),
      call_fetch_transcript prov req
        = .error (.typeError
            "fetch_transcript() got an unexpected keyword argument preserve_formatting")) ∧
    (∀ (prov : Provider) (g : Gemini) (req : SummarizeReq),
      try_body prov g req
        = .error (.typeError
            "fetch_transcript() got an unexpected keyword argument preserve_formatting")) ∧
    (∀ (prov1 prov2 : Provider) (g1 g2 : Gemini) (req : SummarizeReq),
      summarize_handler prov1 g1 req = summarize_handler prov2 g2 req) ∧
    (∀ (prov : Provider) (g : Gemini) (req : SummarizeReq),
      summarize_handler prov g req = .unhandled (.nameError "TranscriptsDisabled")) :=
  ⟨fun _ _ => rfl, fun _ _ _ => rfl, fun _ _ _ _ _ => rfl, fun _ _ _ => rfl⟩

/-- C10: `YouTubeTranscriptApi`, `TranscriptsDisabled`, `NoTranscriptFound`
and `VideoUnavailable` are bound nowhere in the module, so module
initialization stops at `ytt_api = YouTubeTranscriptApi()` with `NameError`
even when the API key is present; and, were the module loaded, every
exception of the handler's `try` block would end as an escaping `NameError`
from the first `except` clause instead of the specified status mapping. -/
theorem undefined_names_break_module_and_handler :
    module_defined_names.contains "YouTubeTranscriptApi" = false ∧
    (∀ n ∈ except_clause1_names, module_defined_names.contains n = false) ∧
    module_init true = .error (.nameError "YouTubeTranscriptApi") ∧
    (∀ e, handle_exception e = .unhandled (.nameError "TranscriptsDisabled")) :=
  ⟨by decide, by decide, by decide, fun _ => rfl⟩

